import Mathlib

/-
Verification of the bnuoj-vjudge-nodejs judger engine against its
natural-language specification.

The development shallowly embeds the two source files of the repository:

* `src/judger/basejudger.js` — the dispatcher wire protocol (length-prefixed
  JSON frames, `onData_`, `sendResult_`) and the judging pipeline
  (`maybeJudge_`, `judge_`, `onSubmitted_`, `onResult_`, `onFailed`);
* `src/judger/a2ojjudger.js` — the A2oj backend (`getLanguage` with its
  language table, the `getStatus` polling loop).

Asynchronous promise chains are embedded as sequential state passing: a
backend is a `Stub` of call outcomes (the spec's "Backend stub"), and a
pipeline run threads a `Trace` recording every backend call, every verdict
passed to `sendResult_`, every verdict constructed by `onFailed`, and the
terminal outcome.  Buffers are lists of byte values; JS numbers used as
lengths are embedded as `Int` (with the signed 4-byte big-endian read of
`Buffer.readIntBE(0, 4)` made explicit).
-/

namespace VJudge

/-! ## Message codec (basejudger.js, `onData_` / `sendResult_`) -/

/-- Signed big-endian 32-bit read of the first four bytes of a buffer,
as `data.readIntBE(0, 4)` in `onData_`. -/
def readIntBE4 (data : List Nat) : Int :=
  let u := data.getD 0 0 * 16777216 + data.getD 1 0 * 65536 +
    data.getD 2 0 * 256 + data.getD 3 0
  if u < 2147483648 then (u : Int) else (u : Int) - 4294967296

/-- Big-endian 4-byte write of a length, as `length.writeIntBE(buffer.length, 0, 4)`
in `sendResult_`. -/
def writeIntBE4 (n : Nat) : List Nat :=
  [n / 16777216 % 256, n / 65536 % 256, n / 256 % 256, n % 256]

/-- The frame an outbound message is sent as by `sendResult_`: a 4-byte
big-endian length prefix followed by the payload bytes (the UTF-8 JSON
serialization of the message). -/
def encodeFrame (payload : List Nat) : List Nat :=
  writeIntBE4 payload.length ++ payload

/-- The per-connection frame accumulator of `BaseJudger`: the fields
`receivedBytes_` (the expected payload length, `0` when idle),
`readBytes_` (how many bytes have been read) and `receivedData_`. -/
structure FrameState where
  receivedBytes : Int
  readBytes : Int
  receivedData : List Nat
deriving DecidableEq

/-- The constructor's initial frame accumulator (`receivedBytes_ = 0`,
`readBytes_ = 0`, `receivedData_ = null`, embedded as the empty buffer). -/
def FrameState.init : FrameState := ⟨0, 0, []⟩

/-- One `onData_(data)` call.  First branch (`receivedBytes_ == 0`): read the
4-byte length, set `readBytes_ = data.length - 4`, keep `data.slice(4)`; when
`readBytes_ == receivedBytes_` the frame is complete, the payload is parsed
and dispatched, and `receivedBytes_` is reset to `0`.  Continuation branch
(`receivedBytes_ != 0`): the source executes `this.readBytes_ = data.length`
and then `Buffer.concat([this.receivedBytes_, data], 2)` — it concatenates the
numeric `receivedBytes_` field instead of the buffered `receivedData_`, which
throws a TypeError; the `.error` value carries the state as updated by the
assignment that ran before the throw. -/
def onData (st : FrameState) (data : List Nat) :
    Except FrameState (FrameState × Option (List Nat)) :=
  if st.receivedBytes = 0 then
    let st' : FrameState :=
      ⟨readIntBE4 data, (data.length : Int) - 4, data.drop 4⟩
    if st'.readBytes = st'.receivedBytes then
      .ok ({ st' with receivedBytes := 0 }, some st'.receivedData)
    else
      .ok (st', none)
  else
    .error { st with readBytes := (data.length : Int) }

/-- Delivering a sequence of chunks to `onData_`, collecting the payloads of
the completed frames; stops at the first thrown TypeError. -/
def feedChunks (st : FrameState) :
    List (List Nat) → Except FrameState (FrameState × List (List Nat))
  | [] => .ok (st, [])
  | d :: rest =>
    match onData st d with
    | .error e => .error e
    | .ok (st', msg) =>
      match feedChunks st' rest with
      | .error e => .error e
      | .ok (st'', msgs) => .ok (st'', msg.toList ++ msgs)

/-! ## Data model (Submission Job, Verdict, failure reasons) -/

/-- A decoded Submission Job, the fields `maybeJudge_` and the backend use:
`{runid, vid, language, source}`. -/
structure Job where
  runid : String
  vid : String
  language : String
  source : String
deriving DecidableEq

/-- The object a backend's `getStatus` resolves with:
`{memoryUsed, timeUsed, result, remoteRunid}`. -/
structure StatusRes where
  memoryUsed : String
  timeUsed : String
  result : String
  remoteRunid : String
deriving DecidableEq

/-- A Verdict as assembled by the pipeline.  `compileInfo` is optional
because the success path only assigns it when `result == 'Compile Error'`
(`onResult_`), while `onFailed` always assigns it. -/
structure Verdict where
  type : Nat
  runid : String
  memoryUsed : String
  timeUsed : String
  result : String
  remoteRunid : String
  compileInfo : Option String
deriving DecidableEq

/-- `BaseJudger.ERRORS.SAME_CODE`. -/
def ERRORS_SAME_CODE : String := "Same code"

/-- `BaseJudger.ERRORS.INVALID_LANGUAGE`. -/
def ERRORS_INVALID_LANGUAGE : String := "Invalid language"

/-- `BaseJudger.ERRORS.COMPILE_ERROR`. -/
def ERRORS_COMPILE_ERROR : String := "Compile error"

/-- `BaseJudger.ERRORS.LOGIN_FAILED`. -/
def ERRORS_LOGIN_FAILED : String := "Login failed"

/-- `BaseJudger.ERRORS.OTHERS`. -/
def ERRORS_OTHERS : String := "Other"

/-- `BaseJudger.RESULT_REPORT_`, the verdict message type. -/
def RESULT_REPORT : Nat := 1003

/-- How a promise returned by a backend call ends: resolved with a value,
rejected with an error, or never settled. -/
inductive PromiseOutcome (α : Type) where
  | resolved (a : α)
  | rejected (err : String)
  | pending
deriving DecidableEq

/-! ## Backend stub and pipeline trace -/

/-- A backend stub for one pipeline run: the outcome of the i-th `login()`
call, the outcome of the i-th `submit()` call (`true` = resolve), and the
outcomes of `getStatus()` and `getCompileInfo()`. -/
structure Stub where
  loginOk : Nat → Bool
  submitOk : Nat → Bool
  statusRes : PromiseOutcome StatusRes
  compileInfoRes : PromiseOutcome String

/-- The terminal outcome of a pipeline run: `reported` when `sendResult_`
ran, `failed reason` when the failure handler `onFailed` ran, and `pending`
when control flow ended with neither (a rejection handler that was built but
never invoked, a promise that never settles, or the missing else branch of
`maybeJudge_`). -/
inductive Outcome where
  | pending
  | failed (reason : String)
  | reported
deriving DecidableEq

/-- The observable record of one pipeline run: how many times each backend
operation was called, every verdict passed to `sendResult_` (`sent`), every
verdict constructed by `onFailed` (`synthesized`), the index of the submit
attempt after which `onSubmitted_` ran (`submittedAt`), and the outcome. -/
structure Trace where
  loginCalls : Nat
  submitCalls : Nat
  statusCalls : Nat
  compileInfoCalls : Nat
  sent : List Verdict
  synthesized : List Verdict
  submittedAt : Option Nat
  outcome : Outcome
deriving DecidableEq

/-- The trace at the start of a run. -/
def Trace.empty : Trace := ⟨0, 0, 0, 0, [], [], none, .pending⟩

/-! ## The pipeline (basejudger.js) -/

/-- The verdict object constructed by `BaseJudger.prototype.onFailed`:
`type = RESULT_REPORT_`, the job's `runid`,
`memoryUsed = timeUsed = remoteRunid = '0'`, `compileInfo = ''`, and
`result` chosen by the if-chain over the failure reason. -/
def failVerdict (info : Job) (reason : String) : Verdict :=
  { type := RESULT_REPORT
    runid := info.runid
    memoryUsed := "0"
    timeUsed := "0"
    remoteRunid := "0"
    compileInfo := some ""
    result :=
      if reason = ERRORS_COMPILE_ERROR then "Compile Error"
      else if reason = ERRORS_SAME_CODE then "Judge Error (Same Code)"
      else if reason = ERRORS_INVALID_LANGUAGE then "Judge Error (Invalid Language)"
      else "Judge Error" }

/-- Running `onFailed(info, reason)`: the handler logs, constructs
`failVerdict info reason` — and stops.  The source contains no call of
`sendResult_` here, so `sent` is unchanged; the constructed object is
recorded in `synthesized`. -/
def runOnFailed (tr : Trace) (info : Job) (reason : String) : Trace :=
  { tr with
    synthesized := tr.synthesized ++ [failVerdict info reason]
    outcome := .failed reason }

/-- Running `sendResult_(result)`: the verdict is framed and written to the
dispatcher socket; the trace records it in `sent`. -/
def runSendResult (tr : Trace) (v : Verdict) : Trace :=
  { tr with sent := tr.sent ++ [v], outcome := .reported }

/-- Running `onResult_(result)`: when `result.result == 'Compile Error'`,
call `getCompileInfo()`; on resolve assign its value to `compileInfo`, on
reject assign the empty string; either way `sendResult_` runs.  For any other
result, `sendResult_(result)` runs unchanged. -/
def runOnResult (ci : PromiseOutcome String) (tr : Trace) (res : Verdict) : Trace :=
  if res.result = "Compile Error" then
    let tr := { tr with compileInfoCalls := tr.compileInfoCalls + 1 }
    match ci with
    | .resolved s => runSendResult tr { res with compileInfo := some s }
    | .rejected _ => runSendResult tr { res with compileInfo := some "" }
    | .pending => tr
  else
    runSendResult tr res

/-- Running `onSubmitted_(info)`: call `getStatus()`.  On resolve, assemble
the verdict (`type`, `runid` added to the status fields; no `compileInfo`
yet) and run `onResult_`.  On reject, the source's handler is
`(err) => this.onFailed.bind(this, info, err)`: it constructs a bound
function and never invokes it, so `onFailed` does not run and the trace
is returned as is. -/
def runOnSubmitted (stub : Stub) (tr : Trace) (info : Job) : Trace :=
  let tr := { tr with statusCalls := tr.statusCalls + 1 }
  match stub.statusRes with
  | .resolved r =>
    runOnResult stub.compileInfoRes tr
      { type := RESULT_REPORT
        runid := info.runid
        memoryUsed := r.memoryUsed
        timeUsed := r.timeUsed
        result := r.result
        remoteRunid := r.remoteRunid
        compileInfo := none }
  | .rejected _ => tr
  | .pending => tr

/-- Modelled from the spec: `getWaitTime` is called by `judge_` before the
Tier-3 submit retry but is defined nowhere in the repository's files; §4.4
describes the policy as "wait a computed backoff interval (a fixed or
randomized delay representing 'submitted too quickly')".  The interval's
length has no effect on the sequential outcome of a run, so it is an
abstract positive duration. -/
def getWaitTime : Nat := 1

/-- Running `judge_(info)`, the submit retry cascade.  Tier 1: `submit`;
on reject, `login()` again (on its reject, `onFailed(info, LOGIN_FAILED)`
runs — this handler is passed as a bound function and is invoked).  Tier 2:
`submit` again; on reject, wait `getWaitTime` and run Tier 3: one more
`submit`.  A resolved submit at any tier runs `onSubmitted_`.  The Tier-3
rejection handler is `(err) => this.onFailed.bind(this, info, err)`: it
constructs a bound function and never invokes it, so after three failed
submits nothing further happens. -/
def runJudge (stub : Stub) (tr : Trace) (info : Job) : Trace :=
  let i0 := tr.submitCalls
  let tr := { tr with submitCalls := i0 + 1 }
  if stub.submitOk i0 then
    runOnSubmitted stub { tr with submittedAt := some i0 } info
  else
    let j := tr.loginCalls
    let tr := { tr with loginCalls := j + 1 }
    if stub.loginOk j then
      let i1 := tr.submitCalls
      let tr := { tr with submitCalls := i1 + 1 }
      if stub.submitOk i1 then
        runOnSubmitted stub { tr with submittedAt := some i1 } info
      else
        let _wait := getWaitTime
        let i2 := tr.submitCalls
        let tr := { tr with submitCalls := i2 + 1 }
        if stub.submitOk i2 then
          runOnSubmitted stub { tr with submittedAt := some i2 } info
        else
          tr
    else
      runOnFailed tr info ERRORS_LOGIN_FAILED

/-! ## The A2oj backend (a2ojjudger.js) -/

/-- `A2ojJudger`'s `languageTable_`, the object literal mapping dispatcher
language codes to A2oj language ids. -/
def languageTable (language : String) : Option String :=
  if language = "1" then some "41"
  else if language = "2" then some "11"
  else if language = "3" then some "10"
  else if language = "4" then some "22"
  else if language = "5" then some "4"
  else if language = "6" then some "27"
  else if language = "7" then some "5"
  else if language = "8" then some "3"
  else if language = "9" then some "17"
  else if language = "10" then some "7"
  else none

/-- `A2ojJudger.prototype.getLanguage`: look the code up in
`languageTable_`; a missing entry throws the string `'Invalid language'`. -/
def getLanguage (language : String) : Except String String :=
  match languageTable language with
  | some v => .ok v
  | none => .error "Invalid language"

/-- Running `maybeJudge_(info)`: translate the language (a throw is caught
and runs `onFailed(info, INVALID_LANGUAGE)`); then, when `loggedIn_` is
false, `login()` — on resolve `judge_`, on reject
`onFailed(info, LOGIN_FAILED)`.  The source has no else branch: when
`loggedIn_` is true nothing at all runs and the job is dropped. -/
def runMaybeJudge (stub : Stub) (loggedIn : Bool) (info : Job) : Trace :=
  match getLanguage info.language with
  | .error _ => runOnFailed Trace.empty info ERRORS_INVALID_LANGUAGE
  | .ok lang =>
    let info := { info with language := lang }
    if !loggedIn then
      let tr := { Trace.empty with loginCalls := 1 }
      if stub.loginOk 0 then runJudge stub tr info
      else runOnFailed tr info ERRORS_LOGIN_FAILED
    else
      Trace.empty

/-- The `end` callback passed to each polled request inside
`A2ojJudger.prototype.getStatus`'s while loop: its body is empty, so it
neither resolves nor rejects the promise and changes nothing. -/
def getStatusPollCallback (p : PromiseOutcome StatusRes) : PromiseOutcome StatusRes := p

/-- The while loop of `getStatus`, iterated however many times the
wall-clock bound `Date.now() - startTime < timeout * 1000` allows: each
iteration fires one request whose callback is `getStatusPollCallback`. -/
def getStatusLoop : Nat → PromiseOutcome StatusRes → PromiseOutcome StatusRes
  | 0, p => p
  | n + 1, p => getStatusLoop n (getStatusPollCallback p)

/-- `A2ojJudger.prototype.getStatus`: with no `statusUrl_` the promise is
rejected at once (`reject()` with no value); otherwise the busy loop runs
and the promise is left unsettled, since no path calls `resolve` or
`reject`. -/
def getStatus (statusUrl : Option String) (iterations : Nat) :
    PromiseOutcome StatusRes :=
  match statusUrl with
  | none => .rejected ""
  | some _ => getStatusLoop iterations .pending

/-! ## Judger instance state and its events (for the `loggedIn_` invariant) -/

/-- The mutable instance fields of a judger relevant to control flow:
`loggedIn_` (BaseJudger constructor), the frame accumulator, and
`statusUrl_` (A2ojJudger constructor, written by a resolved `submit`). -/
structure JState where
  loggedIn : Bool
  frame : FrameState
  statusUrl : Option String
deriving DecidableEq

/-- The state built by the constructors: `loggedIn_ = false`,
empty frame accumulator, `statusUrl_ = null`. -/
def JState.init : JState := ⟨false, FrameState.init, none⟩

/-- The events a running judger handles: the connect callback (writes the
shared secret, touches no instance field), close and error (schedule
`reconnect_`), a data chunk (runs `onData_`), and a completed job frame
dispatched to `maybeJudge_` with a backend stub (`url` is `response.url` of
a resolved submit). -/
inductive Event where
  | connect
  | connClose (hadError : Bool)
  | connError
  | dataChunk (data : List Nat)
  | jobArrival (stub : Stub) (info : Job) (url : String)

/-- The effect of one event on the instance state.  No handler in the source
assigns `loggedIn_`: the connect, close and error handlers only touch the
socket; `onData_` writes the frame fields; the pipeline run triggered by a
completed frame writes only `statusUrl_` (assigned by every resolved
`submit`). -/
def step (s : JState) : Event → JState
  | .connect => s
  | .connClose _ => s
  | .connError => s
  | .dataChunk data =>
    match onData s.frame data with
    | .error st' => { s with frame := st' }
    | .ok (st', _) => { s with frame := st' }
  | .jobArrival stub info url =>
    if (runMaybeJudge stub s.loggedIn info).submittedAt.isSome then
      { s with statusUrl := some url }
    else s

/-- The states a judger can be in: the constructor's state, closed under
event handling. -/
inductive Reachable : JState → Prop where
  | init : Reachable JState.init
  | step (s : JState) (e : Event) : Reachable s → Reachable (step s e)

/-! ## Concrete jobs and backend stubs (the spec's example scenarios) -/

/-- The spec's example job `{runid:"7", vid:"100A", language:"1", source:"..."}`. -/
def job7 : Job := ⟨"7", "100A", "1", "int main(){}"⟩

/-- A job whose language code `"99"` has no entry in the language table. -/
def job99 : Job := ⟨"8", "100A", "99", "int main(){}"⟩

/-- A job as it reaches `judge_`, its language already translated. -/
def jobT : Job := ⟨"7", "100A", "41", "int main(){}"⟩

/-- The spec's example status: `result:"Accepted", memoryUsed:"256",
timeUsed:"15", remoteRunid:"999"`. -/
def statusAccepted : StatusRes := ⟨"256", "15", "Accepted", "999"⟩

/-- A backend stub on which every call succeeds. -/
def stubOk : Stub := ⟨fun _ => true, fun _ => true, .resolved statusAccepted, .resolved ""⟩

/-- A backend stub whose `submit` fails exactly once, then succeeds. -/
def stubFailOnce : Stub :=
  ⟨fun _ => true, fun n => n != 0, .resolved statusAccepted, .resolved ""⟩

/-- A backend stub whose `submit` fails exactly twice, then succeeds. -/
def stubFailTwice : Stub :=
  ⟨fun _ => true, fun n => n != 0 && n != 1, .resolved statusAccepted, .resolved ""⟩

/-- A backend stub whose `submit` always fails. -/
def stubAlwaysFail : Stub :=
  ⟨fun _ => true, fun _ => false, .resolved statusAccepted, .resolved ""⟩

/-- A backend stub whose `login` always fails. -/
def stubLoginFail : Stub :=
  ⟨fun _ => false, fun _ => true, .resolved statusAccepted, .resolved ""⟩

/-- A backend stub whose poll for the verdict (`getStatus`) is rejected. -/
def stubPollFail : Stub := ⟨fun _ => true, fun _ => true, .rejected "", .resolved ""⟩

/-- A verdict whose result is a compile error, as polled from a backend. -/
def verdictCE : Verdict := ⟨1003, "7", "256", "15", "Compile Error", "999", none⟩

end VJudge

namespace VJudge

/-! ## Supporting lemmas -/

/-- `sendResult_` does not touch the login-call count. -/
theorem runSendResult_loginCalls (tr : Trace) (v : Verdict) :
    (runSendResult tr v).loginCalls = tr.loginCalls := rfl

/-- `onResult_` does not touch the login-call count. -/
theorem runOnResult_loginCalls (ci : PromiseOutcome String) (tr : Trace) (res : Verdict) :
    (runOnResult ci tr res).loginCalls = tr.loginCalls := by
  unfold runOnResult runSendResult
  split
  · cases ci <;> rfl
  · rfl

/-- `onSubmitted_` does not touch the login-call count. -/
theorem runOnSubmitted_loginCalls (stub : Stub) (tr : Trace) (info : Job) :
    (runOnSubmitted stub tr info).loginCalls = tr.loginCalls := by
  unfold runOnSubmitted
  split <;> simp [runOnResult_loginCalls]

/-- The retry cascade never lowers the login-call count. -/
theorem runJudge_loginCalls_ge (stub : Stub) (tr : Trace) (info : Job) :
    tr.loginCalls ≤ (runJudge stub tr info).loginCalls := by
  unfold runJudge
  cases h0 : stub.submitOk tr.submitCalls
  · cases hl : stub.loginOk tr.loginCalls
    · simp [h0, hl, runOnFailed]
    · cases h1 : stub.submitOk (tr.submitCalls + 1)
      · cases h2 : stub.submitOk (tr.submitCalls + 1 + 1)
        · simp [h0, hl, h1, h2]
        · simp [h0, hl, h1, h2, runOnSubmitted_loginCalls]
      · simp [h0, hl, h1, runOnSubmitted_loginCalls]
  · simp [h0, runOnSubmitted_loginCalls]

/-- An encoded frame, written out as the four length bytes followed by the
payload. -/
theorem encodeFrame_cons (payload : List Nat) :
    encodeFrame payload =
      payload.length / 16777216 % 256 :: payload.length / 65536 % 256 ::
      payload.length / 256 % 256 :: payload.length % 256 :: payload := by
  simp [encodeFrame, writeIntBE4]

/-- Reading the length prefix of an encoded frame recovers the payload
length (for lengths below 2^31, where the signed read is the identity). -/
theorem readIntBE4_encodeFrame (payload : List Nat) (h : payload.length < 2147483648) :
    readIntBE4 (encodeFrame payload) = (payload.length : Int) := by
  rw [encodeFrame_cons]
  unfold readIntBE4
  simp only [List.getD_cons_zero, List.getD_cons_succ]
  have hu : payload.length / 16777216 % 256 * 16777216 +
      payload.length / 65536 % 256 * 65536 +
      payload.length / 256 % 256 * 256 + payload.length % 256 = payload.length := by
    omega
  rw [hu, if_pos h]

/-- The single-delivery half of the framing round trip does hold on the
source: feeding a whole encoded frame to an idle `onData_` yields its
payload, with `receivedBytes_` reset to `0`. -/
theorem onData_encodeFrame (payload : List Nat) (h : payload.length < 2147483648) :
    onData FrameState.init (encodeFrame payload) =
      Except.ok (⟨0, (payload.length : Int), payload⟩, some payload) := by
  have hlen : ((encodeFrame payload).length : Int) - 4 = (payload.length : Int) := by
    rw [encodeFrame_cons]
    simp only [List.length_cons]
    push_cast
    ring
  have hdrop : (encodeFrame payload).drop 4 = payload := by
    rw [encodeFrame_cons]
    simp [List.drop]
  simp [onData, FrameState.init, readIntBE4_encodeFrame payload h, hlen, hdrop]

/-- No event handler writes the `loggedIn_` field. -/
theorem step_loggedIn (s : JState) (e : Event) : (step s e).loggedIn = s.loggedIn := by
  cases e with
  | connect => rfl
  | connClose b => rfl
  | connError => rfl
  | dataChunk d =>
    simp only [step]
    split <;> rfl
  | jobArrival stub info url =>
    simp only [step]
    split <;> rfl

end VJudge

namespace VJudge

/-! ## Claim theorems -/

/-- Claim C1.  On the all-success path the pipeline sends exactly one verdict
carrying the job's runid (the spec's example scenario).  On a `FAILED` path,
however, `onFailed` constructs the synthesized verdict and never passes it to
`sendResult_`: the run ends in the failed state with the verdict recorded
only in `synthesized` and nothing sent — refuting "exactly one Verdict ...
on every FAILED(reason) path". -/
theorem claim_C1_exactly_one_verdict :
    (runMaybeJudge stubOk false job7).sent =
      [⟨1003, "7", "256", "15", "Accepted", "999", none⟩] ∧
    (runMaybeJudge stubOk false job7).outcome = Outcome.reported ∧
    (runMaybeJudge stubOk false job99).outcome =
      Outcome.failed ERRORS_INVALID_LANGUAGE ∧
    (runMaybeJudge stubOk false job99).synthesized =
      [failVerdict job99 ERRORS_INVALID_LANGUAGE] ∧
    (runMaybeJudge stubOk false job99).sent = [] := by
  decide

/-- Claim C2.  A submit that fails once then succeeds reaches `onSubmitted_`
at the second attempt after one re-authentication, never entering Tier 3; one
that fails twice then succeeds reaches it at the third attempt; but when
submit always fails, the cascade makes exactly three attempts and then stops
silently — the Tier-3 rejection handler builds `onFailed.bind(...)` without
invoking it, so the run never reaches the failed state and synthesizes
nothing, refuting "reaches FAILED after exactly three submit attempts". -/
theorem claim_C2_retry_cascade :
    (runJudge stubFailOnce Trace.empty jobT).submittedAt = some 1 ∧
    (runJudge stubFailOnce Trace.empty jobT).submitCalls = 2 ∧
    (runJudge stubFailOnce Trace.empty jobT).loginCalls = 1 ∧
    (runJudge stubFailOnce Trace.empty jobT).outcome = Outcome.reported ∧
    (runJudge stubFailTwice Trace.empty jobT).submittedAt = some 2 ∧
    (runJudge stubFailTwice Trace.empty jobT).submitCalls = 3 ∧
    (runJudge stubFailTwice Trace.empty jobT).outcome = Outcome.reported ∧
    (runJudge stubAlwaysFail Trace.empty jobT).submitCalls = 3 ∧
    (runJudge stubAlwaysFail Trace.empty jobT).outcome = Outcome.pending ∧
    (runJudge stubAlwaysFail Trace.empty jobT).synthesized = [] ∧
    (runJudge stubAlwaysFail Trace.empty jobT).sent = [] := by
  decide

/-- Claim C3.  With the session not marked authenticated, `maybeJudge_`
authenticates once and proceeds to submit, and an authentication failure runs
`onFailed(LOGIN_FAILED)`; but with the session marked authenticated
(`loggedIn_ = true`) the source has no else branch, so no authenticate, no
submit and no verdict happen at all — refuting "submission is attempted
directly without a prior authenticate() call". -/
theorem claim_C3_authenticated_branch :
    (runMaybeJudge stubOk true job7).loginCalls = 0 ∧
    (runMaybeJudge stubOk true job7).submitCalls = 0 ∧
    (runMaybeJudge stubOk true job7).sent = [] ∧
    (runMaybeJudge stubOk true job7).synthesized = [] ∧
    (runMaybeJudge stubOk true job7).outcome = Outcome.pending ∧
    (runMaybeJudge stubOk false job7).loginCalls = 1 ∧
    (runMaybeJudge stubOk false job7).submittedAt = some 0 ∧
    (runMaybeJudge stubLoginFail false job7).outcome =
      Outcome.failed ERRORS_LOGIN_FAILED ∧
    (runMaybeJudge stubLoginFail false job7).submitCalls = 0 := by
  decide

/-- Claim C4.  When the poll for the verdict is rejected after a successful
submit, the rejection handler `(err) => this.onFailed.bind(this, info, err)`
builds a bound function and never invokes it: the run ends with no transition
to the failed state, no synthesized verdict and nothing sent — refuting
"transitions to FAILED ... and hence a synthesized error verdict is
produced". -/
theorem claim_C4_poll_failure :
    (runMaybeJudge stubPollFail false job7).statusCalls = 1 ∧
    (runMaybeJudge stubPollFail false job7).submittedAt = some 0 ∧
    (runMaybeJudge stubPollFail false job7).outcome = Outcome.pending ∧
    (runMaybeJudge stubPollFail false job7).synthesized = [] ∧
    (runMaybeJudge stubPollFail false job7).sent = [] := by
  decide

/-- Claim C5.  A frame delivered in one chunk decodes back to its payload
with `receivedBytes_` reset to `0`; the same frame delivered as two chunks
does not: the continuation branch of `onData_` overwrites `readBytes_` with
the second chunk's length and concatenates the numeric `receivedBytes_`
field instead of the buffered data, throwing — refuting "split into chunks
at arbitrary offsets reconstructs the same decoded message". -/
theorem claim_C5_framing :
    encodeFrame [123, 125] = [0, 0, 0, 2] ++ [123, 125] ∧
    feedChunks FrameState.init [encodeFrame [123, 125]] =
      Except.ok (⟨0, 2, [123, 125]⟩, [[123, 125]]) ∧
    feedChunks FrameState.init [[0, 0, 0, 2], [123, 125]] =
      Except.error ⟨2, 2, []⟩ :=
  ⟨rfl, rfl, rfl⟩

/-- Claim C6.  `A2ojJudger.prototype.getStatus` never yields a verdict and
never fails with Timeout: with `statusUrl_` set, its promise is still
unsettled after any number of iterations of the polling loop (each request's
callback is empty, so nothing ever resolves or rejects it), and with
`statusUrl_` unset it rejects at once — refuting "always settles within the
configured timeout bound ... either a terminal verdict or Timeout". -/
theorem claim_C6_poll_never_settles (url : String) (n : Nat) :
    getStatus (some url) n = PromiseOutcome.pending ∧
    getStatus none n = PromiseOutcome.rejected "" := by
  constructor
  · show getStatusLoop n .pending = .pending
    induction n with
    | zero => rfl
    | succ k ih => simpa [getStatusLoop, getStatusPollCallback] using ih
  · rfl

/-- Claim C7.  Every code of the language table translates to its mapped
backend id, an unmapped code throws `'Invalid language'`, and the pipeline
then synthesizes exactly the verdict of the spec's example with zero backend
calls — but that verdict is only constructed, never sent (`onFailed` does not
call `sendResult_`), refuting "the emitted verdict". -/
theorem claim_C7_invalid_language :
    getLanguage "1" = Except.ok "41" ∧
    getLanguage "2" = Except.ok "11" ∧
    getLanguage "3" = Except.ok "10" ∧
    getLanguage "4" = Except.ok "22" ∧
    getLanguage "5" = Except.ok "4" ∧
    getLanguage "6" = Except.ok "27" ∧
    getLanguage "7" = Except.ok "5" ∧
    getLanguage "8" = Except.ok "3" ∧
    getLanguage "9" = Except.ok "17" ∧
    getLanguage "10" = Except.ok "7" ∧
    getLanguage "99" = Except.error "Invalid language" ∧
    (runMaybeJudge stubOk false job99).loginCalls = 0 ∧
    (runMaybeJudge stubOk false job99).submitCalls = 0 ∧
    (runMaybeJudge stubOk false job99).statusCalls = 0 ∧
    (runMaybeJudge stubOk false job99).compileInfoCalls = 0 ∧
    (runMaybeJudge stubOk false job99).synthesized =
      [⟨1003, "8", "0", "0", "Judge Error (Invalid Language)", "0", some ""⟩] ∧
    (runMaybeJudge stubOk false job99).sent = [] :=
  ⟨rfl, rfl, rfl, rfl, rfl, rfl, rfl, rfl, rfl, rfl, rfl, rfl, rfl, rfl, rfl, rfl, rfl⟩

/-- Claim C8.  The verdict synthesized by `onFailed` has type 1003, the
job's runid, `memoryUsed = timeUsed = remoteRunid = "0"`, empty
`compileInfo`, and a result classified by the reason: `Compile Error` for the
compile-error reason, `Judge Error (Same Code)` for the duplicate-code
reason, `Judge Error (Invalid Language)` for the invalid-language reason,
and `Judge Error` for `LOGIN_FAILED` and every other reason. -/
theorem claim_C8_fail_verdict (info : Job) (reason : String) :
    (failVerdict info reason).type = 1003 ∧
    (failVerdict info reason).runid = info.runid ∧
    (failVerdict info reason).memoryUsed = "0" ∧
    (failVerdict info reason).timeUsed = "0" ∧
    (failVerdict info reason).remoteRunid = "0" ∧
    (failVerdict info reason).compileInfo = some "" ∧
    (failVerdict info reason).result =
      (if reason = "Compile error" then "Compile Error"
       else if reason = "Same code" then "Judge Error (Same Code)"
       else if reason = "Invalid language" then "Judge Error (Invalid Language)"
       else "Judge Error") ∧
    (failVerdict info ERRORS_LOGIN_FAILED).result = "Judge Error" := by
  refine ⟨rfl, rfl, rfl, rfl, rfl, rfl, rfl, ?_⟩
  rfl

/-- Claim C9.  `onResult_` never reaches the failed state: `getCompileInfo`
is called exactly when the polled result is `"Compile Error"`; a resolved
fetch becomes `compileInfo`, a rejected one is replaced by the empty string
and the verdict is still sent; any other result is sent unchanged. -/
theorem claim_C9_compile_info (res : Verdict) (ci : PromiseOutcome String) :
    (∀ r, (runOnResult ci Trace.empty res).outcome ≠ Outcome.failed r) ∧
    (runOnResult ci Trace.empty res).synthesized = [] ∧
    (runOnResult ci Trace.empty res).compileInfoCalls =
      (if res.result = "Compile Error" then 1 else 0) ∧
    (∀ s, res.result = "Compile Error" → ci = PromiseOutcome.resolved s →
      (runOnResult ci Trace.empty res).sent = [{ res with compileInfo := some s }]) ∧
    (∀ e, res.result = "Compile Error" → ci = PromiseOutcome.rejected e →
      (runOnResult ci Trace.empty res).sent = [{ res with compileInfo := some "" }]) ∧
    (res.result ≠ "Compile Error" → (runOnResult ci Trace.empty res).sent = [res]) := by
  by_cases h : res.result = "Compile Error" <;>
    cases ci <;>
      simp [runOnResult, runSendResult, h, Trace.empty]

/-- Witness for claim C9 at a concrete compile-error verdict whose
diagnostics fetch is rejected: the verdict is still sent, with empty
`compileInfo`. -/
theorem claim_C9_witness :
    (runOnResult (PromiseOutcome.rejected "") Trace.empty verdictCE).sent =
      [{ verdictCE with compileInfo := some "" }] :=
  (claim_C9_compile_info verdictCE (PromiseOutcome.rejected "")).2.2.2.2.1 "" rfl rfl

/-- Claim C10.  `loggedIn_` is false in every reachable state — it is
initialized false and no event handler assigns it — and therefore every job
whose language maps triggers a fresh `login()` call, and no submit happens
unless that fresh login succeeds. -/
theorem claim_C10_loggedIn_invariant :
    (∀ s : JState, Reachable s → s.loggedIn = false) ∧
    (∀ (stub : Stub) (info : Job) (l : String),
      getLanguage info.language = Except.ok l →
        1 ≤ (runMaybeJudge stub false info).loginCalls ∧
        (stub.loginOk 0 = false → (runMaybeJudge stub false info).submitCalls = 0)) := by
  constructor
  · intro s h
    induction h with
    | init => rfl
    | step s' e _ ih => rw [step_loggedIn]; exact ih
  · intro stub info l h
    simp only [runMaybeJudge, h, Bool.not_false, if_true]
    cases hl : stub.loginOk 0
    · constructor
      · simp [runOnFailed, Trace.empty]
      · intro _
        simp [runOnFailed, Trace.empty]
    · constructor
      · simpa [Trace.empty] using
          runJudge_loginCalls_ge stub { Trace.empty with loginCalls := 1 }
            { info with language := l }
      · intro hfalse
        exact Bool.noConfusion hfalse

/-- Witness for claim C10: the state after handling a connect event from the
initial state still has `loggedIn_ = false`, and the spec's example job does
trigger a login call. -/
theorem claim_C10_witness :
    (step JState.init Event.connect).loggedIn = false ∧
    1 ≤ (runMaybeJudge stubOk false job7).loginCalls :=
  ⟨claim_C10_loggedIn_invariant.1 _ (Reachable.step _ _ Reachable.init),
   (claim_C10_loggedIn_invariant.2 stubOk job7 "41" rfl).1⟩

end VJudge
